import Mathlib

/-
Verification of the Confluence PDF exporter against its specification.

The definitions below are a shallow embedding of the TypeScript sources:
  - src/config.ts   : configuration and the orchestrator main loop
                      (history load/save, candidate filtering, export loop)
  - src/crawler.ts  : space discovery, both the API-pagination strategy and
                      the scroll-and-scrape fallback strategy
  - src/exporter.ts : exportPage (UI flow with modal handling) and
                      exportPageRobust (direct flyingpdf endpoint)
  - the unnamed UI variant of exportPageRobust (breadcrumb folder layout,
    explicit "Download PDF" ready link)

Effectful steps (navigation, clicks, downloads, file writes) are embedded as
explicit traces of actions; the browser and filesystem are environments
passed as parameters. JavaScript objects used as string-keyed records are
embedded as association lists.
-/

set_option autoImplicit false

/-- A discovered page, as produced by the crawler: `{ title, url }`. -/
structure PageInfo where
  title : String
  url : String
  deriving DecidableEq, Repr

/-- Lookup in a string-keyed record (the JS object `history`).
`none` models an absent key. -/
def hlookup : List (String × Bool) → String → Option Bool
  | [], _ => none
  | (k, v) :: rest, u => if k = u then some v else hlookup rest u

/-- Assignment `history[url] = v` on a JS object: update the existing entry
in place, or append a fresh one. -/
def hset : List (String × Bool) → String → Bool → List (String × Bool)
  | [], k, v => [(k, v)]
  | (k', v') :: rest, k, v =>
      if k' = k then (k, v) :: rest else (k', v') :: hset rest k v

/-- JS truthiness of `history[p.url]` for a boolean-valued record:
an absent key is falsy. -/
def truthy (o : Option Bool) : Bool := o.getD false

/-- src/config.ts line 93: `pages.filter(p => !history[p.url])` —
the candidate set the orchestrator computes before the export loop. -/
def pagesToExport (history : List (String × Bool)) (pages : List PageInfo) :
    List PageInfo :=
  pages.filter (fun p => ! truthy (hlookup history p.url))

/-- Claim C1: for every history mapping and discovered page list, the
candidate set computed by the orchestrator is exactly the pages whose url is
not mapped to `true` (absent or `false` keys included), in discovery order
(it is a filter of the discovered list, hence an order-preserving sublist). -/
theorem c1_candidate_set (h : List (String × Bool)) (pages : List PageInfo) :
    pagesToExport h pages
      = pages.filter (fun p => decide (hlookup h p.url ≠ some true))
    ∧ (pagesToExport h pages).Sublist pages := by
  constructor
  · unfold pagesToExport
    apply List.filter_congr
    intro p _
    cases ho : hlookup h p.url with
    | none => simp [truthy]
    | some b => cases b <;> simp [truthy]
  · exact List.filter_sublist _

/-
API-pagination discovery — src/crawler.ts, `getSpacePages`, the
`page.evaluate` while-loop (lines 100-150).  The listing API is an
environment mapping a request offset to a response `{status, results}`;
the loop issues requests at increasing offsets.  The element type of
`results` is abstract: the source maps each raw row to a `{title, url}`
record before accumulating, which is length-preserving and offset-agnostic.
The source loop has no iteration bound; we thread explicit fuel and prove
the results for every sufficient fuel.
-/

/-- One response of the content-listing API: HTTP status plus the (already
row-mapped) result list of the page. -/
structure ListingResponse (α : Type) where
  status : Nat
  results : List α
  deriving DecidableEq, Repr

/-- The two fatal discovery failures of the crawler loop:
`auth` embeds the early-return on status 401/403
("Authentication failed (Status s). Please delete auth.json and re-login."),
`discovery` the generic `!response.ok` early-return
("API Fetch failed with status s for URL <endpoint at offset>"). -/
inductive FetchError where
  | auth (status : Nat)
  | discovery (status : Nat) (offset : Nat)
  deriving DecidableEq, Repr

/-- The predicate response.ok of the fetch API: HTTP status in the 200-299 range. -/
def statusOk (s : Nat) : Bool := 200 ≤ s && s < 300

/-- The crawler's pagination loop (src/crawler.ts lines 111-148), with the
page size `limit = 50` inlined as in the source.  Returns the list of the
offsets requested together with either the accumulated entries or the first
fatal error.  Recursion is on explicit fuel; every theorem below supplies
enough fuel for the loop to run to its natural termination. -/
def apiFetchLoop {α : Type} (env : Nat → ListingResponse α) :
    Nat → Nat → List Nat × Except FetchError (List α)
  | 0, _ => ([], Except.ok [])
  | fuel + 1, start =>
      let r := env start
      if r.status = 401 ∨ r.status = 403 then
        ([start], Except.error (FetchError.auth r.status))
      else if ! statusOk r.status then
        ([start], Except.error (FetchError.discovery r.status start))
      else if r.results.length = 0 then
        ([start], Except.ok [])
      else if r.results.length < 50 then
        ([start], Except.ok r.results)
      else
        let rest := apiFetchLoop env fuel (start + 50)
        (start :: rest.1,
          match rest.2 with
          | Except.ok l => Except.ok (r.results ++ l)
          | Except.error e => Except.error e)

/-- A simulated listing API over `n` total items (numbered `0..n-1`) with
page size 50 and always-successful responses: the request at offset `s`
returns the items `s, s+1, ...` up to 50 of them. -/
def simEnv (n : Nat) : Nat → ListingResponse Nat :=
  fun s => ⟨200, List.range' s (min 50 (n - s))⟩

/-- Discovery run against the simulated `n`-item API, with fuel sufficient
for its natural termination. -/
def getSpacePagesApi (n : Nat) : List Nat × Except FetchError (List Nat) :=
  apiFetchLoop (simEnv n) (n / 50 + 1) 0

/-- Exact behaviour of the pagination loop on the simulated API: starting at
offset `s` with any sufficient fuel, the requested offsets are
`s, s+50, ...` (one per 50-item block plus the final short/empty response)
and the accumulated entries are exactly the remaining items. -/
theorem apiFetchLoop_sim (fuel n s : Nat) (hfuel : n - s < 50 * fuel) :
    apiFetchLoop (simEnv n) fuel s
      = ((List.range ((n - s) / 50 + 1)).map (fun i => s + 50 * i),
         Except.ok (List.range' s (n - s))) := by
  induction fuel generalizing s with
  | zero => omega
  | succ fuel ih =>
      by_cases hempty : n - s = 0
      · have hmin : min 50 (n - s) = 0 := by omega
        simp [apiFetchLoop, simEnv, statusOk, hempty, List.range_succ]
      · by_cases hshort : n - s < 50
        · have hmin : min 50 (n - s) = n - s := by omega
          have hdiv : (n - s) / 50 = 0 := by omega
          simp [apiFetchLoop, simEnv, statusOk, hmin, hdiv, hempty, hshort,
            List.range_succ]
        · have hge : 50 ≤ n - s := by omega
          have hmin : min 50 (n - s) = 50 := by omega
          have hrec := ih (s + 50) (by omega)
          have hdiv : (n - s) / 50 = (n - (s + 50)) / 50 + 1 := by omega
          simp only [apiFetchLoop, simEnv, statusOk, hmin, hrec]
          rw [hdiv]
          simp only [List.length_range']
          norm_num
          constructor
          · rw [List.range_succ_eq_map, List.range_succ_eq_map]
            simp only [List.map_cons, List.map_map, List.cons.injEq,
              Function.comp_def]
            refine ⟨by omega, ?_⟩
            rw [List.range_succ_eq_map]
            simp only [List.map_cons, List.map_map, List.cons.injEq,
              Function.comp_def]
            refine ⟨trivial, ?_⟩
            apply List.map_congr_left
            intro i _
            simp only [Nat.succ_eq_add_one]
            omega
          · omega

/-- Claim C2: against a simulated listing API over `n` items with page size
50, discovery requests offsets `0, 50, 100, ...` — one request per full
block plus the final short or empty response — and accumulates every item;
in particular for 120 items it issues exactly the 3 requests at offsets
0, 50, 100 and returns all 120 entries, and for exactly 50 items it issues
2 requests, the second of which returns zero results, before terminating. -/
theorem c2_pagination :
    (∀ n : Nat, getSpacePagesApi n
        = ((List.range (n / 50 + 1)).map (fun i => 50 * i),
           Except.ok (List.range n)))
    ∧ (getSpacePagesApi 120).1 = [0, 50, 100]
    ∧ (getSpacePagesApi 120).2 = Except.ok (List.range 120)
    ∧ (getSpacePagesApi 50).1 = [0, 50]
    ∧ (simEnv 50 50).results = []
    ∧ (getSpacePagesApi 50).2 = Except.ok (List.range 50) := by
  have hgen : ∀ n : Nat, getSpacePagesApi n
      = ((List.range (n / 50 + 1)).map (fun i => 50 * i),
         Except.ok (List.range n)) := by
    intro n
    unfold getSpacePagesApi
    rw [apiFetchLoop_sim (n / 50 + 1) n 0 (by omega)]
    simp [List.range_eq_range']
  refine ⟨hgen, ?_, ?_, ?_, ?_, ?_⟩
  · rw [hgen 120]
    decide
  · rw [hgen 120]
  · rw [hgen 50]
    decide
  · simp [simEnv]
  · rw [hgen 50]

/-- Every offset requested by the pagination loop is at least the starting
offset: the loop only moves forward. -/
theorem apiFetchLoop_offsets_ge {α : Type} (env : Nat → ListingResponse α) :
    ∀ fuel s x : Nat, x ∈ (apiFetchLoop env fuel s).1 → s ≤ x := by
  intro fuel
  induction fuel with
  | zero =>
      intro s x hx
      simp [apiFetchLoop] at hx
  | succ fuel ih =>
      intro s x hx
      simp only [apiFetchLoop] at hx
      split at hx
      · simp at hx
        omega
      · split at hx
        · simp at hx
          omega
        · split at hx
          · simp at hx
            omega
          · split at hx
            · simp at hx
              omega
            · simp at hx
              rcases hx with hx | hx
              · omega
              · have := ih (s + 50) x hx
                omega

/-- The offsets requested across one whole discovery run are strictly
increasing: no offset is ever requested twice (no retry of any request). -/
theorem apiFetchLoop_offsets_sorted {α : Type}
    (env : Nat → ListingResponse α) :
    ∀ fuel s : Nat, List.Pairwise (· < ·) (apiFetchLoop env fuel s).1 := by
  intro fuel
  induction fuel with
  | zero =>
      intro s
      simp [apiFetchLoop]
  | succ fuel ih =>
      intro s
      simp only [apiFetchLoop]
      split
      · simp
      · split
        · simp
        · split
          · simp
          · split
            · simp
            · refine List.Pairwise.cons ?_ (ih (s + 50))
              intro x hx
              have := apiFetchLoop_offsets_ge env fuel (s + 50) x hx
              omega

/-- Claim C7: a 401 or 403 response at any offset of the pagination makes
discovery terminate at once with the dedicated authentication error — the
failing offset is the last request issued, it is never reissued (offsets are
strictly increasing across a run, so no request is ever retried), and the
authentication error is a different constructor from the generic discovery
error used for other non-success statuses. -/
theorem c7_auth_fatal :
    (∀ (env : Nat → ListingResponse Nat) (s fuel : Nat),
        (env s).status = 401 ∨ (env s).status = 403 →
          apiFetchLoop env (fuel + 1) s
            = ([s], Except.error (FetchError.auth (env s).status)))
    ∧ (∀ st st2 off : Nat, FetchError.auth st ≠ FetchError.discovery st2 off)
    ∧ (∀ (env : Nat → ListingResponse Nat) (fuel s : Nat),
        List.Pairwise (· < ·) (apiFetchLoop env fuel s).1) := by
  refine ⟨?_, ?_, ?_⟩
  · intro env s fuel h
    simp only [apiFetchLoop]
    rw [if_pos h]
  · intro st st2 off
    simp
  · intro env fuel s
    exact apiFetchLoop_offsets_sorted env fuel s

/-- Witness for `c7_auth_fatal`: a concrete environment answering 401 at
offset 0 yields exactly one request and the authentication error. -/
theorem c7_auth_fatal_witness :
    apiFetchLoop (fun _ => ({ status := 401, results := [] } :
        ListingResponse Nat)) 1 0
      = ([0], Except.error (FetchError.auth 401)) :=
  c7_auth_fatal.1 (fun _ => { status := 401, results := [] }) 0 0 (Or.inl rfl)

/-
Scroll-based fallback discovery — src/crawler.ts, second `getSpacePages`
variant, the scrolling loop (lines 204-227):

    const maxScrolls = 100;
    for (let i = 0; i < maxScrolls; i++) {
      previousHeight = scrollHeight; scrollTo(bottom); wait;
      newHeight = scrollHeight;
      if (newHeight === previousHeight) {
        if (loadMore visible) { click; wait; } else break;
      }
    }

The page is an adversarial environment choosing the observed heights and
the visibility of the "Load more" control at every iteration.
-/

/-- Environment of the scroll loop: for iteration `i`, the height observed
before scrolling, the height observed after scrolling, and whether a
"Load more" control is visible. -/
structure ScrollEnv where
  prevHeight : Nat → Nat
  newHeight : Nat → Nat
  loadMore : Nat → Bool

/-- The scroll loop: `i` is the iteration index, the second argument the
remaining loop budget (`maxScrolls - i`); returns the number of iterations
executed.  The loop breaks only when the height stabilised and no
"Load more" control is visible. -/
def scrollIters (env : ScrollEnv) : Nat → Nat → Nat
  | _, 0 => 0
  | i, budget + 1 =>
      if env.newHeight i = env.prevHeight i then
        if env.loadMore i then 1 + scrollIters env (i + 1) budget
        else 1
      else 1 + scrollIters env (i + 1) budget

/-- The constant maxScrolls, the safety limit of the source. -/
def maxScrolls : Nat := 100

/-- The number of scroll-and-load iterations the fallback discovery
performs against a given page environment. -/
def scrollCount (env : ScrollEnv) : Nat := scrollIters env 0 maxScrolls

set_option maxRecDepth 4000 in
/-- Claim C9: the scroll-based fallback discovery always terminates — the
loop executes at most `maxScrolls = 100` iterations for every environment,
including one whose height never stabilises and one that always presents a
"Load more" control; both adversaries are stopped at exactly 100. -/
theorem c9_scroll_bounded :
    (∀ (env : ScrollEnv) (i budget : Nat), scrollIters env i budget ≤ budget)
    ∧ (∀ env : ScrollEnv, scrollCount env ≤ 100)
    ∧ scrollCount ⟨fun _ => 0, fun i => i + 1, fun _ => false⟩ = 100
    ∧ scrollCount ⟨fun _ => 5, fun _ => 5, fun _ => true⟩ = 100 := by
  have hb : ∀ (env : ScrollEnv) (budget i : Nat),
      scrollIters env i budget ≤ budget := by
    intro env budget
    induction budget with
    | zero =>
        intro i
        simp [scrollIters]
    | succ budget ih =>
        intro i
        simp only [scrollIters]
        split
        · split
          · have := ih (i + 1)
            omega
          · omega
        · have := ih (i + 1)
          omega
  refine ⟨fun env i budget => hb env budget i,
          fun env => hb env maxScrolls 0, ?_, ?_⟩
  · decide
  · decide

/-
Bounded retry — the README documents an auto-retry configuration
(`retryOnError`, `maxRetries`) and the spec describes the policy (per-page
sequence restarted from NAVIGATE up to the configured number of additional
attempts); the wrapper implementing it is not present under src/, so it is
modelled from the specification.
-/

/-- Modelled from the spec: the bounded retry loop around one page's export
sequence, missing from src/ (the README's `retryOnError`/`maxRetries`
configuration and spec §4.2 "failures ... restart from NAVIGATE, up to a
configured maximum number of additional attempts").  `attempt k` is the
outcome of the k-th run of the whole per-page sequence; the result is the
final outcome together with the number of attempts performed. -/
def tryExport (attempt : Nat → Bool) : Nat → Nat → Bool × Nat
  | idx, retriesLeft =>
      if attempt idx then (true, 1)
      else
        match retriesLeft with
        | 0 => (false, 1)
        | r + 1 =>
            let res := tryExport attempt (idx + 1) r
            (res.1, res.2 + 1)

/-- Modelled from the spec: a page export with the retry policy applied —
`maxRetries` additional attempts are allowed only when `retryOnError` is
enabled. -/
def exportWithRetry (retryOnError : Bool) (maxRetries : Nat)
    (attempt : Nat → Bool) : Bool × Nat :=
  tryExport attempt 0 (if retryOnError then maxRetries else 0)

/-
Orchestrator export loop — src/config.ts `main`, lines 114-129:

    for (const [index, p] of pagesToExport.entries()) {
      const success = await exportPageRobust(page, p.url, spaceOutputDir);
      if (success) { successCount++; history[p.url] = true; saveHistory(history); }
      else { failCount++; }
    }

Embedded as a fold over the candidate list; `export_` gives each page's
export outcome.  The loop additionally emits an event trace: one `attempt`
event per export invocation and one `mark` event per history mutation
(`history[p.url] = true` immediately followed by `saveHistory`).
-/

/-- Observable events of the orchestrator loop, in program order. -/
inductive Event where
  | attempt (url : String) (success : Bool)
  | mark (url : String)
  deriving DecidableEq, Repr

/-- The orchestrator's export loop over the candidate pages: returns the
final history together with the event trace. -/
def exportLoop (export_ : PageInfo → Bool) :
    List PageInfo → List (String × Bool) → List (String × Bool) × List Event
  | [], h => (h, [])
  | p :: ps, h =>
      let s := export_ p
      let h2 := if s then hset h p.url true else h
      let res := exportLoop export_ ps h2
      (res.1,
        (if s then [Event.attempt p.url true, Event.mark p.url]
         else [Event.attempt p.url false]) ++ res.2)

/-- A full orchestrator run: filter the discovered pages through the
history, then drive the export loop (src/config.ts lines 93 and 114-129). -/
def orchestratorRun (export_ : PageInfo → Bool)
    (history : List (String × Bool)) (pages : List PageInfo) :
    List (String × Bool) × List Event :=
  exportLoop export_ (pagesToExport history pages) history

/-- Trace check: every `mark u` event is preceded, somewhere earlier in the
trace, by a successful `attempt u` event (`seen` accumulates the urls whose
successful attempt has been passed). -/
def checkMarks : List String → List Event → Bool
  | _, [] => true
  | seen, Event.attempt u true :: rest => checkMarks (u :: seen) rest
  | seen, Event.attempt _ false :: rest => checkMarks seen rest
  | seen, Event.mark u :: rest => seen.contains u && checkMarks seen rest

/-- Looking up a key after `hset h k true` gives `true` at `k` and is
unchanged elsewhere. -/
theorem hlookup_hset_true (h : List (String × Bool)) (k u : String) :
    hlookup (hset h k true) u
      = if u = k then some true else hlookup h u := by
  induction h with
  | nil =>
      by_cases hu : u = k
      · simp [hset, hlookup, hu]
      · simp [hset, hlookup, hu, Ne.symm hu]
  | cons a t ih =>
      obtain ⟨k', v'⟩ := a
      by_cases hk : k' = k
      · by_cases hu : u = k
        · simp [hset, hlookup, hk, hu]
        · simp [hset, hlookup, hk, hu, Ne.symm hu]
      · by_cases hu : k' = u
        · have hu2 : ¬ u = k := by
            rw [← hu]
            exact hk
          simp [hset, hlookup, hk, hu, hu2]
        · simp [hset, hlookup, hk, hu, ih]

/-- An entry already `true` in the history stays `true` through the whole
export loop: the only history mutation is `hset _ _ true`. -/
theorem exportLoop_monotone (ex : PageInfo → Bool) :
    ∀ (ps : List PageInfo) (h : List (String × Bool)) (url : String),
      hlookup h url = some true →
        hlookup (exportLoop ex ps h).1 url = some true := by
  intro ps
  induction ps with
  | nil =>
      intro h url hh
      simpa [exportLoop] using hh
  | cons p ps ih =>
      intro h url hh
      cases hs : ex p with
      | false =>
          simp only [exportLoop, hs]
          simpa using ih h url hh
      | true =>
          simp only [exportLoop, hs]
          simp only [if_true]
          apply ih
          rw [hlookup_hset_true]
          by_cases hu : url = p.url
          · simp [hu]
          · simp [hu, hh]

/-- Every `mark` event the export loop emits is preceded in the trace by a
successful `attempt` of the same url. -/
theorem exportLoop_checkMarks (ex : PageInfo → Bool) :
    ∀ (ps : List PageInfo) (seen : List String) (h : List (String × Bool)),
      checkMarks seen (exportLoop ex ps h).2 = true := by
  intro ps
  induction ps with
  | nil =>
      intro seen h
      simp [exportLoop, checkMarks]
  | cons p ps ih =>
      intro seen h
      cases hs : ex p <;>
        simp [exportLoop, hs, checkMarks, ih]

/-- A url that ends the export loop mapped to `true` either started `true`
or was marked during the loop. -/
theorem exportLoop_true_origin (ex : PageInfo → Bool) :
    ∀ (ps : List PageInfo) (h : List (String × Bool)) (url : String),
      hlookup (exportLoop ex ps h).1 url = some true →
        hlookup h url = some true
          ∨ Event.mark url ∈ (exportLoop ex ps h).2 := by
  intro ps
  induction ps with
  | nil =>
      intro h url hh
      left
      simpa [exportLoop] using hh
  | cons p ps ih =>
      intro h url hh
      cases hs : ex p with
      | false =>
          simp only [exportLoop, hs] at hh ⊢
          simp only [Bool.false_eq_true, if_false] at hh ⊢
          rcases ih h url hh with hl | hr
          · exact Or.inl hl
          · right
            simp [hr]
      | true =>
          simp only [exportLoop, hs, if_true] at hh ⊢
          rcases ih (hset h p.url true) url hh with hl | hr
          · rw [hlookup_hset_true] at hl
            by_cases hu : url = p.url
            · right
              simp [hu]
            · rw [if_neg hu] at hl
              exact Or.inl hl
          · right
            simp [hr]

/-- Claim C6: throughout an orchestrator run the history is monotone — an
entry once `true` is never unset by the export loop (nor by a full run),
every `mark` in the event trace is strictly preceded by a successful
`attempt` of the same url (so history is never marked before a page's
attempt, nor for a failed page), and any url that ends the run `true` was
either already `true` or marked during the run. -/
theorem c6_history_monotone :
    (∀ (ex : PageInfo → Bool) (ps : List PageInfo)
        (h : List (String × Bool)) (url : String),
        hlookup h url = some true →
          hlookup (exportLoop ex ps h).1 url = some true)
    ∧ (∀ (ex : PageInfo → Bool) (h : List (String × Bool))
        (ps : List PageInfo) (url : String),
        hlookup h url = some true →
          hlookup (orchestratorRun ex h ps).1 url = some true)
    ∧ (∀ (ex : PageInfo → Bool) (ps : List PageInfo)
        (h : List (String × Bool)),
        checkMarks [] (exportLoop ex ps h).2 = true)
    ∧ (∀ (ex : PageInfo → Bool) (ps : List PageInfo)
        (h : List (String × Bool)) (url : String),
        hlookup (exportLoop ex ps h).1 url = some true →
          hlookup h url = some true
            ∨ Event.mark url ∈ (exportLoop ex ps h).2) := by
  refine ⟨exportLoop_monotone, ?_, ?_, exportLoop_true_origin⟩
  · intro ex h ps url hh
    exact exportLoop_monotone ex (pagesToExport h ps) h url hh
  · intro ex ps h
    exact exportLoop_checkMarks ex ps [] h

/-- Witness for `c6_history_monotone` at a concrete run: a history entry
`("v", true)` survives the export of an unrelated page, and the
true-origin disjunction holds at the empty candidate list. -/
theorem c6_history_monotone_witness :
    hlookup (exportLoop (fun _ => true)
        [{ title := "T", url := "u" }] [("v", true)]).1 "v" = some true
    ∧ (hlookup [("v", true)] "v" = some true
        ∨ Event.mark "v" ∈ (exportLoop (fun _ => true) [] [("v", true)]).2) :=
  ⟨c6_history_monotone.1 (fun _ => true)
      [{ title := "T", url := "u" }] [("v", true)] "v" (by decide),
   c6_history_monotone.2.2.2 (fun _ => true) [] [("v", true)] "v" (by decide)⟩

/-- Claim C3: with `retryOnError = true` and `maxRetries = 3`, a page whose
export sequence always fails is attempted exactly 4 times (1 initial + 3
retries) with final outcome `false`, and the orchestrator loop neither
changes the history nor emits a `mark` event for that page. -/
theorem c3_retry_bound :
    exportWithRetry true 3 (fun _ => false) = (false, 4)
    ∧ (∀ (h : List (String × Bool)) (p : PageInfo),
        (exportLoop (fun _ => (exportWithRetry true 3 (fun _ => false)).1)
            [p] h).1 = h)
    ∧ (∀ (h : List (String × Bool)) (p : PageInfo),
        Event.mark p.url ∉
          (exportLoop (fun _ => (exportWithRetry true 3 (fun _ => false)).1)
              [p] h).2) := by
  have hfalse : (exportWithRetry true 3 (fun _ => false)).1 = false := by
    decide
  refine ⟨by decide, ?_, ?_⟩
  · intro h p
    simp [exportLoop, hfalse]
  · intro h p
    simp [exportLoop, hfalse]

/-
Filename sanitisation and directory layout — src/exporter.ts and the
unnamed UI variant:

    function sanitizeFilename(name) {
        return name.replace(/[^a-z0-9]/gi, '_').toLowerCase();
    }

Characters are handled through their code points: `lowerNat` is ASCII
`toLowerCase` (the only case the titles exercise), `keepAlnum` is the
`[a-z0-9]` class with the `i` flag (ASCII letters and digits).
-/

/-- ASCII lowercasing on code points: `A`..`Z` (65..90) shift by 32. -/
def lowerNat (n : Nat) : Nat := if 65 ≤ n ∧ n ≤ 90 then n + 32 else n

/-- Membership in the regex class `[a-z0-9]` with the `i` flag:
`a`..`z` (97..122), `A`..`Z` (65..90) or `0`..`9` (48..57). -/
def keepAlnum (n : Nat) : Bool :=
  (97 ≤ n && n ≤ 122) || (65 ≤ n && n ≤ 90) || (48 ≤ n && n ≤ 57)

/-- One character of `sanitizeFilename`, as the source computes it:
replace everything outside `[a-z0-9]` (case-insensitive) by `_` (95),
then lowercase. -/
def sanChar (c : Char) : Char :=
  Char.ofNat (lowerNat (if keepAlnum c.toNat then c.toNat else 95))

/-- The helper sanitizeFilename from src/exporter.ts (identical helper in the
unnamed UI variant). -/
def sanitizeFilename (s : String) : String := String.mk (s.toList.map sanChar)

/-- One character of the sanitisation as the spec words it: lowercase
first, then replace every character outside `[a-z0-9]` with `_`. -/
def sanCharSpec (c : Char) : Char :=
  Char.ofNat
    (if (97 ≤ lowerNat c.toNat && lowerNat c.toNat ≤ 122)
        || (48 ≤ lowerNat c.toNat && lowerNat c.toNat ≤ 57)
     then lowerNat c.toNat else 95)

/-- The spec-worded sanitisation. -/
def sanitizeSpec (s : String) : String := String.mk (s.toList.map sanCharSpec)

/-- Node's `path.join(...segments)`: joins with `/`; with no segments the
result is `"."`. -/
def joinSegs : List String → String
  | [] => "."
  | [s] => s
  | s :: rest => s ++ "/" ++ joinSegs rest

/-- Node's binary `path.join(base, rel)` for the shapes this program
produces: joining with `"."` normalises away, otherwise the segments are
separated by `/`. -/
def pathJoin2 (a b : String) : String :=
  if b = "." then a else a ++ "/" ++ b

/-- Breadcrumb-derived directory segments (unnamed UI variant, lines
44-50): drop the first trail entry (the space root) when present, sanitise
each remaining entry. -/
def deriveRelSegs (trail : List String) : List String :=
  (match trail with
   | [] => ([] : List String)
   | _ :: rest => rest).map sanitizeFilename

/-- Claim C5: the relative directory is obtained by dropping the first
breadcrumb entry and sanitising each remaining entry (lowercase, every
character outside `[a-z0-9]` replaced by `_` — the code's
replace-then-lowercase equals the spec's lowercase-then-replace); the trail
`["Space Name","Engineering","RFCs"]` yields `engineering/rfcs`, and an
empty trail places the file directly in the destination directory. -/
theorem c5_breadcrumb_paths :
    (∀ s : String, sanitizeFilename s = sanitizeSpec s)
    ∧ (∀ trail : List String,
        deriveRelSegs trail = (trail.drop 1).map sanitizeFilename)
    ∧ joinSegs (deriveRelSegs ["Space Name", "Engineering", "RFCs"])
        = "engineering/rfcs"
    ∧ (∀ outputDir : String,
        pathJoin2 outputDir (joinSegs (deriveRelSegs [])) = outputDir) := by
  refine ⟨?_, ?_, ?_, ?_⟩
  · intro s
    unfold sanitizeFilename sanitizeSpec
    congr 1
    apply List.map_congr_left
    intro c _
    unfold sanChar sanCharSpec
    congr 1
    unfold lowerNat keepAlnum
    simp only [Bool.or_eq_true, Bool.and_eq_true, decide_eq_true_eq]
    split_ifs <;> omega
  · intro trail
    cases trail <;> rfl
  · decide
  · intro outputDir
    simp [deriveRelSegs, joinSegs, pathJoin2]

/-
Export flows as traces.  Each export-flow variant is embedded as a function
from its environment (what the remote page presents: titles, element
visibility, whether the download materialises, which files exist) to the
outcome boolean together with the ordered list of performed actions.
-/

/-- The observable actions of an export flow, in program order. -/
inductive UiAction where
  | navigate (url : String)
  | readTitle
  | readBreadcrumbs
  | mkdir (dir : String)
  | openMenu
  | openExportSubmenu
  | triggerExportToPdf
  | armDownload
  | clickModalExport
  | clickDownloadLink
  | awaitDownload
  | saveFile (path : String)
  | screenshot (path : String)
  deriving DecidableEq, Repr

/-- Does the pattern `pat` start the character list `s`? -/
def startsWithChars : List Char → List Char → Bool
  | [], _ => true
  | _ :: _, [] => false
  | p :: ps, c :: cs => p = c && startsWithChars ps cs

/-- JS `String.prototype.replace` with a plain-string pattern: replace the
first occurrence only (`pat` is nonempty for every use in the source). -/
def replaceFirstChars (pat rep : List Char) : List Char → List Char
  | [] => []
  | c :: cs =>
      if startsWithChars pat (c :: cs) then rep ++ (c :: cs).drop pat.length
      else c :: replaceFirstChars pat rep cs

/-- Whitespace for `String.prototype.trim` (the ASCII cases the titles
exercise). -/
def isWsChar (c : Char) : Bool := c = ' ' || c = '\t' || c = '\n' || c = '\r'

/-- JS `String.prototype.trim`. -/
def trimChars (s : List Char) : List Char :=
  ((s.dropWhile isWsChar).reverse.dropWhile isWsChar).reverse

/-
`exportPage` — src/exporter.ts lines 11-121: navigate, read the document
title, compute the output path, skip when the file exists; otherwise open
the actions menu, resolve the "Export to PDF" entry through the selector
fallbacks, and handle the confirmation modal.  The download listener is
armed only in the modal branch (line 86), immediately before the modal's
Export button is clicked; the source's own comments (lines 92-100) record
that when no modal appears the "Export to PDF" menu click itself is the
download trigger and was not wrapped — the inner catch swallows the thrown
error and the function still returns true (lines 103-115).
-/

/-- Environment of `exportPage`. -/
structure ExportPageEnv where
  docTitle : String
  fileExists : String → Bool
  moreActionsOk : Bool
  exportPdfItemVisible : Bool
  fallbackExportVisible : Bool
  exportMenuVisible : Bool
  modalBtnVisible : Bool
  downloadArrives : Bool

/-- The output path `exportPage` computes:
`path.join(outputDir, sanitizeFilename(title.replace(' - Confluence','').trim()) + '.pdf')`. -/
def exportPageComputedPath (e : ExportPageEnv) (outputDir : String) : String :=
  outputDir ++ "/"
    ++ sanitizeFilename (String.mk (trimChars
        (replaceFirstChars (" - Confluence".toList) [] e.docTitle.toList)))
    ++ ".pdf"

/-- The modal-handling tail of `exportPage` (lines 67-115), entered after
the "Export to PDF" menu entry was clicked. -/
def exportPageAfterTrigger (e : ExportPageEnv) (outputPath : String)
    (tr : List UiAction) : Bool × List UiAction :=
  if e.modalBtnVisible then
    let tr2 := tr ++ [UiAction.armDownload, UiAction.clickModalExport]
    if e.downloadArrives then
      (true, tr2 ++ [UiAction.awaitDownload, UiAction.saveFile outputPath])
    else (true, tr2)
  else (true, tr)

/-- The function exportPage from src/exporter.ts as a trace-producing function. -/
def exportPageTrace (e : ExportPageEnv) (pageUrl outputDir : String) :
    Bool × List UiAction :=
  let tr0 := [UiAction.navigate pageUrl, UiAction.readTitle]
  let outputPath := exportPageComputedPath e outputDir
  if e.fileExists outputPath then (true, tr0)
  else if ! e.moreActionsOk then (false, tr0)
  else
    let tr1 := tr0 ++ [UiAction.openMenu]
    if e.exportPdfItemVisible then
      exportPageAfterTrigger e outputPath (tr1 ++ [UiAction.triggerExportToPdf])
    else if e.fallbackExportVisible then
      exportPageAfterTrigger e outputPath (tr1 ++ [UiAction.triggerExportToPdf])
    else if e.exportMenuVisible then
      exportPageAfterTrigger e outputPath
        (tr1 ++ [UiAction.openExportSubmenu, UiAction.triggerExportToPdf])
    else (false, tr1)

/-
The UI variant of `exportPageRobust` (unnamed source file): navigate, read
the title (page h1 falling back to the document title), read the
breadcrumbs, create the breadcrumb-derived directory, skip when the file
exists; otherwise click through "More actions" → "Export" →
"Export to PDF", wait for the "Download PDF" ready link, arm the download
listener, click the link, save.  Every failing wait throws into the catch
block which records a screenshot and returns false.
-/

/-- Environment of the UI `exportPageRobust` variant.  `h1Text` is `some`
only when the page-title heading is visible with non-empty text;
`breadcrumbs` are the collected non-empty trimmed breadcrumb texts. -/
structure RobustUiEnv where
  docTitle : String
  h1Text : Option String
  breadcrumbs : List String
  dirExists : Bool
  fileExists : String → Bool
  moreActionsVisible : Bool
  exportMenuVisible : Bool
  exportPdfLinkVisible : Bool
  downloadReadyAppears : Bool
  downloadArrives : Bool
  now : String

/-- The resolved content title (h1 text, falling back to the document
title). -/
def robustUiTitle (e : RobustUiEnv) : String :=
  match e.h1Text with
  | some t => t
  | none => e.docTitle

/-- The final directory: destination joined with the breadcrumb-derived
relative path. -/
def robustUiFinalDir (e : RobustUiEnv) (outputDir : String) : String :=
  pathJoin2 outputDir (joinSegs (deriveRelSegs e.breadcrumbs))

/-- The output path of the UI variant:
`path.join(finalDir, sanitizeFilename(title.trim().replace(' - Confluence','')) + '.pdf')`. -/
def robustUiOutputPath (e : RobustUiEnv) (outputDir : String) : String :=
  robustUiFinalDir e outputDir ++ "/"
    ++ sanitizeFilename (String.mk
        (replaceFirstChars (" - Confluence".toList) []
          (trimChars (robustUiTitle e).toList)))
    ++ ".pdf"

/-- The error screenshot path of the UI variant:
`path.join(outputDir, 'error_' + Date.now() + '.png')`. -/
def robustUiShot (e : RobustUiEnv) (outputDir : String) : String :=
  outputDir ++ "/error_" ++ e.now ++ ".png"

/-- The UI `exportPageRobust` variant as a trace-producing function. -/
def exportRobustUiTrace (e : RobustUiEnv) (pageUrl outputDir : String) :
    Bool × List UiAction :=
  let outputPath := robustUiOutputPath e outputDir
  let tr0 := [UiAction.navigate pageUrl, UiAction.readTitle,
    UiAction.readBreadcrumbs]
  let tr1 := if e.dirExists then tr0
    else tr0 ++ [UiAction.mkdir (robustUiFinalDir e outputDir)]
  if e.fileExists outputPath then (true, tr1)
  else if ! e.moreActionsVisible then
    (false, tr1 ++ [UiAction.screenshot (robustUiShot e outputDir)])
  else
    let tr2 := tr1 ++ [UiAction.openMenu]
    if ! e.exportMenuVisible then
      (false, tr2 ++ [UiAction.screenshot (robustUiShot e outputDir)])
    else
      let tr3 := tr2 ++ [UiAction.openExportSubmenu]
      if ! e.exportPdfLinkVisible then
        (false, tr3 ++ [UiAction.screenshot (robustUiShot e outputDir)])
      else
        let tr4 := tr3 ++ [UiAction.triggerExportToPdf]
        if ! e.downloadReadyAppears then
          (false, tr4 ++ [UiAction.screenshot (robustUiShot e outputDir)])
        else
          let tr5 := tr4 ++ [UiAction.armDownload, UiAction.clickDownloadLink]
          if e.downloadArrives then
            (true, tr5 ++ [UiAction.awaitDownload, UiAction.saveFile outputPath])
          else
            (false, tr5 ++ [UiAction.screenshot (robustUiShot e outputDir)])

/-- Actions that interact with the remote export UI or capture its
download: menu opening, export triggering and downloading. -/
def isRemoteUi : UiAction → Bool
  | UiAction.openMenu => true
  | UiAction.openExportSubmenu => true
  | UiAction.triggerExportToPdf => true
  | UiAction.clickModalExport => true
  | UiAction.clickDownloadLink => true
  | UiAction.awaitDownload => true
  | _ => false

/-- Actions that write a file (the downloaded artifact). -/
def writesFile : UiAction → Bool
  | UiAction.saveFile _ => true
  | _ => false

/-- Claim C4: when the computed output path already names an existing file,
the CHECK_EXISTING short-circuit of `exportPage` (src/exporter.ts lines
26-29) and of the UI `exportPageRobust` variant (unnamed file, lines 68-71)
returns a successful outcome with no remote UI interaction — no menu
opening, no export trigger, no download — and without writing any file, so
the existing artifact is not overwritten. -/
theorem c4_skip_existing :
    (∀ (e : ExportPageEnv) (u d : String),
        e.fileExists (exportPageComputedPath e d) = true →
          (exportPageTrace e u d).1 = true
          ∧ (exportPageTrace e u d).2
              = [UiAction.navigate u, UiAction.readTitle])
    ∧ (∀ (e : RobustUiEnv) (u d : String),
        e.fileExists (robustUiOutputPath e d) = true →
          (exportRobustUiTrace e u d).1 = true
          ∧ ((exportRobustUiTrace e u d).2.all
              (fun a => ! (isRemoteUi a || writesFile a))) = true) := by
  constructor
  · intro e u d hx
    constructor
    · simp [exportPageTrace, hx]
    · simp [exportPageTrace, hx]
  · intro e u d hx
    constructor
    · cases hd : e.dirExists <;>
        simp [exportRobustUiTrace, hx, hd]
    · cases hd : e.dirExists <;>
        simp [exportRobustUiTrace, hx, hd, isRemoteUi, writesFile]

/-- Witness for `c4_skip_existing`: with every queried path reported as
existing, both flows succeed at a concrete page. -/
theorem c4_skip_existing_witness :
    (exportPageTrace
        { docTitle := "T - Confluence", fileExists := fun _ => true,
          moreActionsOk := true, exportPdfItemVisible := true,
          fallbackExportVisible := false, exportMenuVisible := false,
          modalBtnVisible := false, downloadArrives := false }
        "https://example.net/wiki/spaces/S/pages/1/T" "out").1 = true
    ∧ (exportRobustUiTrace
        { docTitle := "T", h1Text := none, breadcrumbs := ["Space", "Sub"],
          dirExists := false, fileExists := fun _ => true,
          moreActionsVisible := true, exportMenuVisible := true,
          exportPdfLinkVisible := true, downloadReadyAppears := true,
          downloadArrives := true, now := "123" }
        "https://example.net/wiki/spaces/S/pages/1/T" "out").1 = true :=
  ⟨(c4_skip_existing.1 _ "https://example.net/wiki/spaces/S/pages/1/T"
      "out" rfl).1,
   (c4_skip_existing.2 _ "https://example.net/wiki/spaces/S/pages/1/T"
      "out" rfl).1⟩

/-- The no-modal environment on which `exportPage` performs the
potentially download-triggering click unarmed. -/
def c8Env : ExportPageEnv :=
  { docTitle := "Doc - Confluence", fileExists := fun _ => false,
    moreActionsOk := true, exportPdfItemVisible := true,
    fallbackExportVisible := false, exportMenuVisible := false,
    modalBtnVisible := false, downloadArrives := false }

/-- The concrete page url of the `c8Env` scenario. -/
def c8Url : String := "https://example.net/wiki/spaces/S/pages/42/Doc"

/-- Claim C8, evaluated at the failing scenario: running `exportPage`
against a service that presents no confirmation modal — the case in which,
per the source's own comments (src/exporter.ts lines 92-100), the
"Export to PDF" menu click itself is the download trigger — performs that
click with no download listener armed anywhere in the trace, and still
returns true without capturing anything.  This contradicts the claim that
in every flow variant the wait-for-download is registered before the click
that may trigger it. -/
theorem c8_unarmed_trigger :
    (exportPageTrace c8Env c8Url "out").2
      = [UiAction.navigate c8Url, UiAction.readTitle, UiAction.openMenu,
         UiAction.triggerExportToPdf]
    ∧ UiAction.armDownload ∉ (exportPageTrace c8Env c8Url "out").2
    ∧ UiAction.triggerExportToPdf ∈ (exportPageTrace c8Env c8Url "out").2
    ∧ (exportPageTrace c8Env c8Url "out").1 = true := by
  refine ⟨?_, ?_, ?_, ?_⟩ <;>
    simp [exportPageTrace, exportPageAfterTrigger, c8Env, c8Url]

/-
The direct-endpoint `exportPageRobust` — src/exporter.ts lines 124-198:
extract the page id with the regex `/pages\/(\d+)/`, bail out with `false`
before doing anything else when it does not match; otherwise arm the
download listener, navigate to the flyingpdf export url and save the
captured download (overwriting an existing file), or record an error
screenshot on failure.
-/

/-- ASCII digit test (`\d` of the regex). -/
def isDigitChar (c : Char) : Bool := 48 ≤ c.toNat && c.toNat ≤ 57

/-- The regex scan `pat(\d+)`: at each position, if `pat` matches and at
least one digit follows, capture the maximal digit run; otherwise advance
one character (as the unanchored regex engine does). -/
def findIdMatch (pat : List Char) : List Char → Option (List Char)
  | [] => none
  | c :: cs =>
      if startsWithChars pat (c :: cs) then
        let ds := ((c :: cs).drop pat.length).takeWhile isDigitChar
        if ds.isEmpty then findIdMatch pat cs else some ds
      else findIdMatch pat cs

/-- The match `pageUrl.match(/pages\/(\d+)/)` — the page-id extraction the source
performs: the pattern is `pages/` NOT anchored to a preceding slash. -/
def matchPagesId (url : String) : Option String :=
  (findIdMatch "pages/".toList url.toList).map String.mk

/-- The claim's wording: a numeric `/pages/<digits>` segment, i.e. the
pattern anchored to a preceding `/`. -/
def matchSlashPagesId (url : String) : Option String :=
  (findIdMatch "/pages/".toList url.toList).map String.mk

/-- Split a character list at the first occurrence of `pat`, returning the
parts before and after it. -/
def splitAtSub (pat : List Char) : List Char → Option (List Char × List Char)
  | [] => if pat.isEmpty then some ([], []) else none
  | c :: cs =>
      if startsWithChars pat (c :: cs) then
        some ([], (c :: cs).drop pat.length)
      else (splitAtSub pat cs).map (fun pr => (c :: pr.1, pr.2))

/-- The origin `new URL(pageUrl).origin` for the urls this program handles
(scheme://host[:port] with no userinfo and no default-port elision):
everything up to the first `/` after the `://` separator. -/
def originOf (url : String) : String :=
  match splitAtSub "://".toList url.toList with
  | none => url
  | some (scheme, rest) =>
      String.mk (scheme ++ "://".toList ++ rest.takeWhile (fun c => c ≠ '/'))

/-- Environment of the direct-endpoint variant. -/
structure DirectEnv where
  downloadArrives : Bool
  suggestedFilename : String

/-- The direct-endpoint `exportPageRobust` as a trace-producing function.
When the page-id regex does not match, the function returns `false` before
the `try` block: no listener, no navigation, no download, no screenshot. -/
def exportPageRobustDirect (env : DirectEnv) (pageUrl outputDir : String) :
    Bool × List UiAction :=
  match matchPagesId pageUrl with
  | none => (false, [])
  | some pageId =>
      let exportUrl := originOf pageUrl
        ++ "/wiki/spaces/flyingpdf/pdfpageexport.action?pageId=" ++ pageId
      let tr := [UiAction.armDownload, UiAction.navigate exportUrl]
      if env.downloadArrives then
        let outputPath := outputDir ++ "/"
          ++ sanitizeFilename env.suggestedFilename
        (true,
          tr ++ [UiAction.awaitDownload, UiAction.saveFile outputPath])
      else
        (false,
          tr ++ [UiAction.screenshot
            (outputDir ++ "/error_" ++ pageId ++ ".png")])

/-- Counterexample to claim C10 as stated: the url
`https://example.net/xpages/123` contains no `/pages/<digits>` segment,
yet the direct-endpoint `exportPageRobust` does not fail immediately — its
unanchored regex matches the substring `pages/123` of `xpages/123`, so the
flow navigates to the export endpoint, captures the download and returns
true. -/
theorem c10_counterexample :
    matchSlashPagesId "https://example.net/xpages/123" = none
    ∧ (exportPageRobustDirect
        { downloadArrives := true, suggestedFilename := "Doc.pdf" }
        "https://example.net/xpages/123" "out").1 = true
    ∧ ((exportPageRobustDirect
        { downloadArrives := true, suggestedFilename := "Doc.pdf" }
        "https://example.net/xpages/123" "out").2.any
          (fun a => match a with
            | UiAction.navigate _ => true
            | _ => false)) = true := by
  refine ⟨?_, ?_, ?_⟩ <;> decide

/-- Claim C10 (amended): for every page url in which the substring `pages/`
is nowhere followed by a digit — the unanchored pattern the code actually
uses — the direct-endpoint `exportPageRobust` returns a failed outcome
immediately, with an empty action trace: no navigation, no remote contact,
no artifact and no screenshot. -/
theorem c10_no_page_id :
    ∀ (env : DirectEnv) (url outputDir : String),
      matchPagesId url = none →
        exportPageRobustDirect env url outputDir = (false, []) := by
  intro env url outputDir hm
  unfold exportPageRobustDirect
  rw [hm]

/-- Witness for `c10_no_page_id` at a concrete id-less url. -/
theorem c10_no_page_id_witness :
    matchPagesId "https://example.net/wiki/spaces/S/overview" = none
    ∧ exportPageRobustDirect
        { downloadArrives := true, suggestedFilename := "Doc.pdf" }
        "https://example.net/wiki/spaces/S/overview" "out" = (false, []) :=
  ⟨by decide,
   c10_no_page_id { downloadArrives := true, suggestedFilename := "Doc.pdf" }
     "https://example.net/wiki/spaces/S/overview" "out" (by decide)⟩

